import Mathlib

/-!
Shallow embedding of `plugins/modules/ecs_domain.py` (the Entrust Certificate
Services domain-validation module).

Python values that may be `None` are modelled with `Option`; Python truthiness
tests (`if x:`) are modelled with explicit `truthy*` helpers.  `datetime`
values are modelled as integer microsecond timestamps, so that
`(expiry - now).days` becomes a floor division by the number of microseconds
per day (Python's `timedelta.days` floors).  The external API client is
modelled by an environment record holding the responses the client would
return for the (at most three) `GetDomain` calls and the add/reverify call of
a single module run; API calls issued by the module are recorded in a trace.
-/

set_option autoImplicit false

/-- Python `str.lower()` on the ASCII strings the module handles, written as
a character map so that it evaluates by kernel reduction. -/
def pyLower (s : String) : String := String.mk (s.data.map Char.toLower)

/-- Python `str.upper()` on the ASCII strings the module handles, written as
a character map so that it evaluates by kernel reduction. -/
def pyUpper (s : String) : String := String.mk (s.data.map Char.toUpper)

/-- Python truthiness of an optional string (`None` and `''` are falsy). -/
def truthyStr : Option String → Bool
  | Option.none => false
  | Option.some s => s != ""

/-- Python truthiness of an optional integer (`None` and `0` are falsy). -/
def truthyOptInt : Option Int → Bool
  | Option.none => false
  | Option.some n => n != 0

/-- Python truthiness of an optional list (`None` and `[]` are falsy). -/
def truthyOptList : Option (List String) → Bool
  | Option.none => false
  | Option.some l => !l.isEmpty

/-- Values appearing in the module's flat result dictionary. -/
inductive PyVal where
  | pyNone
  | pyBool (b : Bool)
  | pyInt (n : Int)
  | pyStr (s : String)
  | pyStrList (l : List String)
deriving DecidableEq, Repr

def pyOfOptStr : Option String → PyVal
  | Option.none => PyVal.pyNone
  | Option.some s => PyVal.pyStr s

def pyOfOptInt : Option Int → PyVal
  | Option.none => PyVal.pyNone
  | Option.some n => PyVal.pyInt n

def pyOfOptBool : Option Bool → PyVal
  | Option.none => PyVal.pyNone
  | Option.some b => PyVal.pyBool b

def pyOfOptList : Option (List String) → PyVal
  | Option.none => PyVal.pyNone
  | Option.some l => PyVal.pyStrList l

/-- The `dnsMethod` sub-dictionary of a `GetDomain` response. -/
structure DnsMethod where
  recordDomain : String
  recordType : String
  recordValue : String
deriving DecidableEq, Repr

/-- The `webServerMethod` sub-dictionary of a `GetDomain` response. -/
structure WebServerMethod where
  fileLocation : String
  fileContents : String
deriving DecidableEq, Repr

/-- A `GetDomain` response (`domain_details` in the source).  `ovExpiry` and
`evExpiry` are already-parsed timestamps in microseconds (`Option.none` for an
absent or empty date string, both falsy in Python). -/
structure DomainDetails where
  verificationMethod : Option String
  verificationStatus : String
  ovEligible : Option Bool
  ovExpiry : Option Int
  evEligible : Option Bool
  evExpiry : Option Int
  clientId : Int
  dnsMethod : Option DnsMethod
  webServerMethod : Option WebServerMethod
  emailMethod : Option (List String)
deriving DecidableEq, Repr

/-- Microseconds per day, for `timedelta.days`. -/
def MICROS_PER_DAY : Int := 86400000000

/-- Embedding of `calculate_days_remaining`: `None` for an absent expiry date,
otherwise the floored number of whole days between `now` and the expiry. -/
def calculate_days_remaining (expiry_date : Option Int) (now : Int) : Option Int :=
  match expiry_date with
  | Option.none => Option.none
  | Option.some e => Option.some (Int.fdiv (e - now) MICROS_PER_DAY)

/-- The mutable fields of the `EcsDomain` object, as set by `__init__`. -/
structure EcsDomainState where
  changed : Bool := false
  domain_status : Option String := Option.none
  verification_method : Option String := Option.none
  file_location : Option String := Option.none
  file_contents : Option String := Option.none
  dns_location : Option String := Option.none
  dns_contents : Option String := Option.none
  dns_resource_type : Option String := Option.none
  emails : Option (List String) := Option.none
  ov_eligible : Option Bool := Option.none
  ov_days_remaining : Option Int := Option.none
  ev_eligible : Option Bool := Option.none
  ev_days_remaining : Option Int := Option.none
  client_id : Option Int := Option.none
deriving DecidableEq, Repr

/-- The state of a freshly constructed `EcsDomain` object. -/
def initState : EcsDomainState := {}

/-- The module parameters relevant to the domain logic. -/
structure ModuleParams where
  client_id : Int
  domain_name : String
  verification_method : String
  verification_email : Option String
deriving DecidableEq, Repr

namespace EcsDomain

/-- Embedding of `EcsDomain.set_domain_details`.  `now` is the current time
used by `calculate_days_remaining`. -/
def set_domain_details (s : EcsDomainState) (d : DomainDetails) (now : Int) :
    EcsDomainState :=
  let vm : Option String :=
    match d.verificationMethod with
    | Option.some v => if v != "" then Option.some (pyLower v) else s.verification_method
    | Option.none => s.verification_method
  let base : EcsDomainState :=
    { s with
      verification_method := vm,
      domain_status := Option.some d.verificationStatus,
      ov_eligible := d.ovEligible,
      ov_days_remaining := calculate_days_remaining d.ovExpiry now,
      ev_eligible := d.evEligible,
      ev_days_remaining := calculate_days_remaining d.evExpiry now,
      client_id := Option.some d.clientId }
  if vm = Option.some "dns" ∧ d.dnsMethod.isSome then
    { base with
      dns_location := d.dnsMethod.map DnsMethod.recordDomain,
      dns_resource_type := d.dnsMethod.map DnsMethod.recordType,
      dns_contents := d.dnsMethod.map DnsMethod.recordValue }
  else if vm = Option.some "web_server" ∧ d.webServerMethod.isSome then
    { base with
      file_location := d.webServerMethod.map WebServerMethod.fileLocation,
      file_contents := d.webServerMethod.map WebServerMethod.fileContents }
  else if vm = Option.some "email" ∧ truthyOptList d.emailMethod then
    { base with emails := d.emailMethod }
  else
    base

/-- Embedding of `EcsDomain.check`.  `fetch` is the outcome of the
`GetDomain` call (`Except.error` for a `RestOperationException`), `requested`
is `module.params['verification_method']`.  Returns the updated object state
and the boolean result. -/
def check (s : EcsDomainState) (fetch : Except Unit DomainDetails) (now : Int)
    (requested : String) : EcsDomainState × Bool :=
  match fetch with
  | Except.error _ => (s, false)
  | Except.ok d =>
    let s := set_domain_details s d now
    if s.domain_status ≠ Option.some "APPROVED" ∧
        s.domain_status ≠ Option.some "INITIAL_VERIFICATION" ∧
        s.domain_status ≠ Option.some "RE_VERIFICATION" then
      (s, false)
    else if (s.domain_status = Option.some "INITIAL_VERIFICATION" ∨
        s.domain_status = Option.some "RE_VERIFICATION") ∧
        s.verification_method ≠ Option.some requested then
      (s, false)
    else if s.domain_status = Option.some "EXPIRING" then
      (s, false)
    else
      (s, true)

end EcsDomain

/-- The `emailMethod` sub-dictionary of a request body. -/
structure EmailMethodBody where
  emailSource : String
  email : Option String
deriving DecidableEq, Repr

/-- The request body built by `request_domain`. -/
structure RequestBody where
  verificationMethod : String
  emailMethod : Option EmailMethodBody
  domainName : Option String
deriving DecidableEq, Repr

/-- An API call issued by the module, with its arguments. -/
inductive ApiCall where
  | GetAppVersion
  | GetDomain (clientId : Int) (domain : String)
  | AddDomain (clientId : Int) (body : RequestBody)
  | ReverifyDomain (clientId : Int) (domain : String) (body : RequestBody)
deriving DecidableEq, Repr

/-- The responses the external API would give during one `request_domain`
run: the `GetDomain` of `check`, the add/reverify call, the `GetDomain`
after the fixed 5-second sleep, and the `GetDomain` after the poll loop
(only consulted when the verification method is dns or web_server). -/
structure ApiEnv where
  getDomain1 : Except Unit DomainDetails
  requestResult : Except Unit Unit
  getDomain2 : Except Unit DomainDetails
  getDomain3 : Except Unit DomainDetails
deriving Repr

namespace EcsDomain

/-- The request body built by `request_domain` from the module parameters and
the current `self.domain_status`. -/
def build_body (p : ModuleParams) (domain_status : Option String) : RequestBody :=
  let emailMethod : Option EmailMethodBody :=
    if p.verification_method = "email" then
      Option.some
        (if truthyStr p.verification_email then
          { emailSource := "SPECIFIED", email := p.verification_email }
        else
          { emailSource := "INCLUDE_WHOIS", email := Option.none })
    else
      Option.none
  { verificationMethod := pyUpper p.verification_method,
    emailMethod := emailMethod,
    domainName :=
      if !truthyStr domain_status then Option.some p.domain_name else Option.none }

/-- The condition tested inside the artifact-poll loop of `request_domain`:
the freshly fetched record carries a dns record value (resp. web-server file
contents) different from the one stored by the earlier `check`. -/
def artifact_changed (vm : String) (result : DomainDetails) (s : EcsDomainState) :
    Bool :=
  if vm = "dns" then
    match result.dnsMethod with
    | Option.some m => Option.some m.recordValue != s.dns_contents
    | Option.none => false
  else if vm = "web_server" then
    match result.webServerMethod with
    | Option.some m => Option.some m.fileContents != s.file_contents
    | Option.none => false
  else
    false

/-- Embedding of the `for i in range(n)` artifact-poll loop of
`request_domain`.  The loop body neither refetches `result` nor sleeps, so
the tested condition `cond` is constant across iterations; the body contains
only the conditional `break`.  Returns the number of iterations whose body
was entered and whether the loop was left by `break`. -/
def poll_loop (cond : Bool) : Nat → Nat × Bool
  | 0 => (0, false)
  | n + 1 =>
    if cond then (1, true)
    else
      let r := poll_loop cond n
      (r.1 + 1, r.2)

/-- The `fail_json` message of `request_domain`'s exception handler. -/
def requestFailMsg : String := "Failed to request domain validation from Entrust (ECS)"

/-- Embedding of `EcsDomain.request_domain`.  Returns the trace of API calls
issued alongside either the final object state (`Except.ok`) or the
`fail_json` abort (`Except.error`). -/
def request_domain (s0 : EcsDomainState) (p : ModuleParams) (env : ApiEnv)
    (now : Int) : List ApiCall × Except String EcsDomainState :=
  match EcsDomain.check s0 env.getDomain1 now p.verification_method with
  | (s, true) => ([ApiCall.GetDomain p.client_id p.domain_name], Except.ok s)
  | (s, false) =>
    let body := build_body p s.domain_status
    let reqCall : ApiCall :=
      if !truthyStr s.domain_status then
        ApiCall.AddDomain p.client_id body
      else
        ApiCall.ReverifyDomain p.client_id p.domain_name body
    let getCall : ApiCall := ApiCall.GetDomain p.client_id p.domain_name
    match env.requestResult with
    | Except.error _ => ([getCall, reqCall], Except.error requestFailMsg)
    | Except.ok _ =>
      match env.getDomain2 with
      | Except.error _ =>
        ([getCall, reqCall, getCall], Except.error requestFailMsg)
      | Except.ok result =>
        if p.verification_method = "dns" ∨ p.verification_method = "web_server" then
          let _poll := poll_loop (artifact_changed p.verification_method result s) 4
          match env.getDomain3 with
          | Except.error _ =>
            ([getCall, reqCall, getCall, getCall], Except.error requestFailMsg)
          | Except.ok result2 =>
            ([getCall, reqCall, getCall, getCall],
              Except.ok (set_domain_details { s with changed := true } result2 now))
        else
          ([getCall, reqCall, getCall],
            Except.ok (set_domain_details { s with changed := true } result now))

/-- Assignment `result[k] = v` on a Python dictionary modelled as an
association list: replace the value if the key is present, else append. -/
def dictSet (dict : List (String × PyVal)) (k : String) (v : PyVal) :
    List (String × PyVal) :=
  if dict.any fun kv => kv.fst == k then
    dict.map fun kv => if kv.fst == k then (k, v) else kv
  else
    dict ++ [(k, v)]

/-- A guarded assignment `if cond: result[k] = v`, as used by the chain of
conditional assignments in `EcsDomain.dump`. -/
def condSet (cond : Bool) (dict : List (String × PyVal)) (k : String) (v : PyVal) :
    List (String × PyVal) :=
  if cond then dictSet dict k v else dict

/-- The final `if/elif` chain of `EcsDomain.dump`, adding the artifact fields
selected by the current verification method to the result dictionary. -/
def dumpArtifact (s : EcsDomainState) (result : List (String × PyVal)) :
    List (String × PyVal) :=
  if s.verification_method = Option.some "dns" then
    dictSet
      (dictSet
        (dictSet result "dns_location" (pyOfOptStr s.dns_location))
        "dns_contents" (pyOfOptStr s.dns_contents))
      "dns_resource_type" (pyOfOptStr s.dns_resource_type)
  else if s.verification_method = Option.some "web_server" then
    dictSet
      (dictSet result "file_location" (pyOfOptStr s.file_location))
      "file_contents" (pyOfOptStr s.file_contents)
  else if s.verification_method = Option.some "email" then
    dictSet result "emails" (pyOfOptList s.emails)
  else result

/-- Embedding of `EcsDomain.dump`: the flat result dictionary, built from the
unconditionally assigned fields by the six guarded assignments (in source
order) and the final artifact `if/elif` chain. -/
def dump (s : EcsDomainState) : List (String × PyVal) :=
  dumpArtifact s
    (condSet (truthyOptList s.emails)
      (condSet (truthyOptInt s.ev_days_remaining)
        (condSet s.ev_eligible.isSome
          (condSet (truthyOptInt s.ov_days_remaining)
            (condSet s.ov_eligible.isSome
              (condSet (truthyStr s.verification_method)
                [("changed", PyVal.pyBool s.changed),
                 ("client_id", pyOfOptInt s.client_id),
                 ("domain_status", pyOfOptStr s.domain_status)]
                "verification_method" (pyOfOptStr s.verification_method))
              "ov_eligible" (pyOfOptBool s.ov_eligible))
            "ov_days_remaining" (pyOfOptInt s.ov_days_remaining))
          "ev_eligible" (pyOfOptBool s.ev_eligible))
        "ev_days_remaining" (pyOfOptInt s.ev_days_remaining))
      "emails" (pyOfOptList s.emails))

/-- The keys present in the result dictionary produced by `dump`. -/
def dumpKeys (s : EcsDomainState) : List String := (dump s).map Prod.fst

end EcsDomain

/-- Outcome of the client construction attempted in `EcsDomain.__init__`. -/
structure InitEnv where
  sessionConfigOk : Bool
  getAppVersionOk : Bool
deriving DecidableEq, Repr

/-- An observable event of a `main` run. -/
inductive MainEvent where
  | constructClient
  | apiCall (c : ApiCall)
  | failJson (msg : String)
  | exitJson
deriving DecidableEq, Repr

/-- Embedding of `main`: the sequence of observable events of one module
run.  The `verification_email` validation happens first; only then is the
ECS client constructed (raising inside the constructor leaves it
unconstructed) and its credentials tested with `GetAppVersion`; only then
does `request_domain` run, followed by `exit_json` on the result of
`dump`. -/
def main_run (p : ModuleParams) (ienv : InitEnv) (env : ApiEnv) (now : Int) :
    List MainEvent :=
  if truthyStr p.verification_email ∧ p.verification_method ≠ "email" then
    [MainEvent.failJson
      ("The verification_email field is invalid when verification_method=\"" ++
        p.verification_method ++ "\".")]
  else if !ienv.sessionConfigOk then
    [MainEvent.failJson "Failed to initialize Entrust Provider"]
  else if !ienv.getAppVersionOk then
    [MainEvent.constructClient, MainEvent.apiCall ApiCall.GetAppVersion,
     MainEvent.failJson "Please verify credential information."]
  else
    [MainEvent.constructClient, MainEvent.apiCall ApiCall.GetAppVersion] ++
      ((EcsDomain.request_domain initState p env now).1.map MainEvent.apiCall) ++
      (match (EcsDomain.request_domain initState p env now).2 with
       | Except.ok _ => [MainEvent.exitJson]
       | Except.error m => [MainEvent.failJson m])

namespace EcsDomain

theorem set_domain_details_changed (s : EcsDomainState) (d : DomainDetails) (now : Int) :
    (set_domain_details s d now).changed = s.changed := by
  simp only [set_domain_details]
  split
  · rfl
  split
  · rfl
  split
  · rfl
  · rfl

theorem set_domain_details_status (s : EcsDomainState) (d : DomainDetails) (now : Int) :
    (set_domain_details s d now).domain_status = Option.some d.verificationStatus := by
  simp only [set_domain_details]
  split
  · rfl
  split
  · rfl
  split
  · rfl
  · rfl

theorem set_domain_details_ov_days (s : EcsDomainState) (d : DomainDetails) (now : Int) :
    (set_domain_details s d now).ov_days_remaining = calculate_days_remaining d.ovExpiry now := by
  simp only [set_domain_details]
  split
  · rfl
  split
  · rfl
  split
  · rfl
  · rfl

theorem set_domain_details_ev_days (s : EcsDomainState) (d : DomainDetails) (now : Int) :
    (set_domain_details s d now).ev_days_remaining = calculate_days_remaining d.evExpiry now := by
  simp only [set_domain_details]
  split
  · rfl
  split
  · rfl
  split
  · rfl
  · rfl

theorem check_error_eq (s : EcsDomainState) (now : Int) (rm : String) (e : Unit) :
    check s (Except.error e) now rm = (s, false) := rfl

theorem check_ok_fst (s : EcsDomainState) (d : DomainDetails) (now : Int) (rm : String) :
    (check s (Except.ok d) now rm).1 = set_domain_details s d now := by
  simp only [check]
  split
  · rfl
  split
  · rfl
  split
  · rfl
  · rfl

theorem check_ok_snd_iff (s : EcsDomainState) (d : DomainDetails) (now : Int) (rm : String) :
    (check s (Except.ok d) now rm).2 = true ↔
      ((d.verificationStatus = "APPROVED" ∨ d.verificationStatus = "INITIAL_VERIFICATION" ∨
          d.verificationStatus = "RE_VERIFICATION") ∧
        ((d.verificationStatus = "INITIAL_VERIFICATION" ∨
            d.verificationStatus = "RE_VERIFICATION") →
          (set_domain_details s d now).verification_method = Option.some rm)) := by
  simp only [check, set_domain_details_status]
  split
  · next h =>
    simp only [ne_eq, Option.some.injEq, not_and, not_not] at h
    by_cases hA : d.verificationStatus = "APPROVED" <;>
      by_cases hI : d.verificationStatus = "INITIAL_VERIFICATION" <;>
        by_cases hR : d.verificationStatus = "RE_VERIFICATION" <;>
          simp_all
  · next h =>
    simp only [ne_eq, Option.some.injEq, not_and, not_not, Classical.not_imp] at h
    split
    · next h2 =>
      simp only [Option.some.injEq] at h2
      simp only [Bool.false_eq_true, false_iff, not_and, Classical.not_imp]
      intro _
      exact ⟨h2.1, h2.2⟩
    · next h2 =>
      simp only [Option.some.injEq, not_and, not_not] at h2
      split
      · next h3 =>
        simp only [Option.some.injEq] at h3
        by_cases hA : d.verificationStatus = "APPROVED" <;>
          by_cases hI : d.verificationStatus = "INITIAL_VERIFICATION" <;>
            by_cases hR : d.verificationStatus = "RE_VERIFICATION" <;>
              simp_all
      · next h3 =>
        simp only [Option.some.injEq] at h3
        by_cases hA : d.verificationStatus = "APPROVED" <;>
          by_cases hI : d.verificationStatus = "INITIAL_VERIFICATION" <;>
            by_cases hR : d.verificationStatus = "RE_VERIFICATION" <;>
              simp_all

end EcsDomain


namespace EcsDomain

theorem request_domain_check_true (s0 : EcsDomainState) (p : ModuleParams) (env : ApiEnv)
    (now : Int) (s : EcsDomainState)
    (h : check s0 env.getDomain1 now p.verification_method = (s, true)) :
    request_domain s0 p env now =
      ([ApiCall.GetDomain p.client_id p.domain_name], Except.ok s) := by
  unfold request_domain
  rw [h]

/-- After a failed `check`, the trace of `request_domain` is the `GetDomain`
of `check`, then the add/reverify call chosen by the truthiness of
`self.domain_status`, then only further `GetDomain` calls. -/
theorem request_domain_calls_shape (s0 : EcsDomainState) (p : ModuleParams) (env : ApiEnv)
    (now : Int) (s : EcsDomainState)
    (h : check s0 env.getDomain1 now p.verification_method = (s, false)) :
    ∃ tail : List ApiCall,
      (request_domain s0 p env now).1 =
        ApiCall.GetDomain p.client_id p.domain_name ::
          (if !truthyStr s.domain_status then
            ApiCall.AddDomain p.client_id (build_body p s.domain_status)
          else
            ApiCall.ReverifyDomain p.client_id p.domain_name (build_body p s.domain_status)) ::
          tail ∧
      ∀ c ∈ tail, c = ApiCall.GetDomain p.client_id p.domain_name := by
  unfold request_domain
  rw [h]
  rcases env with ⟨g1, rr, g2, g3⟩
  rcases rr with re | ru
  · exact ⟨[], rfl, by simp⟩
  rcases g2 with ge | r
  · exact ⟨[ApiCall.GetDomain p.client_id p.domain_name], rfl, by simp⟩
  dsimp only
  by_cases hm : p.verification_method = "dns" ∨ p.verification_method = "web_server"
  · rw [if_pos hm]
    rcases g3 with g3e | r2
    · exact ⟨[ApiCall.GetDomain p.client_id p.domain_name,
        ApiCall.GetDomain p.client_id p.domain_name], rfl, by simp⟩
    · exact ⟨[ApiCall.GetDomain p.client_id p.domain_name,
        ApiCall.GetDomain p.client_id p.domain_name], rfl, by simp⟩
  · rw [if_neg hm]
    exact ⟨[ApiCall.GetDomain p.client_id p.domain_name], rfl, by simp⟩

/-- After a failed `check`, the final-state component of `request_domain` is
either the `fail_json` abort or an `ok` state obtained from
`set_domain_details` with the `changed` flag set to `true`. -/
theorem request_domain_result_shape (s0 : EcsDomainState) (p : ModuleParams) (env : ApiEnv)
    (now : Int) (s : EcsDomainState)
    (h : check s0 env.getDomain1 now p.verification_method = (s, false)) :
    (request_domain s0 p env now).2 = Except.error requestFailMsg ∨
      ∃ r : DomainDetails,
        (request_domain s0 p env now).2 =
          Except.ok (set_domain_details { s with changed := true } r now) := by
  unfold request_domain
  rw [h]
  rcases env with ⟨g1, rr, g2, g3⟩
  rcases rr with re | ru
  · exact Or.inl rfl
  rcases g2 with ge | r
  · exact Or.inl rfl
  dsimp only
  by_cases hm : p.verification_method = "dns" ∨ p.verification_method = "web_server"
  · rw [if_pos hm]
    rcases g3 with g3e | r2
    · exact Or.inl rfl
    · exact Or.inr ⟨r2, rfl⟩
  · rw [if_neg hm]
    exact Or.inr ⟨r, rfl⟩

/-- When the request and all subsequent fetches succeed, `request_domain`
after a failed `check` ends in an `ok` state whose `changed` flag is `true`. -/
theorem request_domain_success_changed (s0 : EcsDomainState) (p : ModuleParams) (env : ApiEnv)
    (now : Int) (s : EcsDomainState) (r2 r3 : DomainDetails)
    (h : check s0 env.getDomain1 now p.verification_method = (s, false))
    (hreq : env.requestResult = Except.ok ())
    (hg2 : env.getDomain2 = Except.ok r2)
    (hg3 : env.getDomain3 = Except.ok r3) :
    ∃ s' : EcsDomainState,
      (request_domain s0 p env now).2 = Except.ok s' ∧ s'.changed = true := by
  unfold request_domain
  rw [h]
  rcases env with ⟨g1, rr, g2, g3⟩
  simp only at hreq hg2 hg3
  subst hreq hg2 hg3
  dsimp only
  by_cases hm : p.verification_method = "dns" ∨ p.verification_method = "web_server"
  · rw [if_pos hm]
    exact ⟨_, rfl, by rw [set_domain_details_changed]⟩
  · rw [if_neg hm]
    exact ⟨_, rfl, by rw [set_domain_details_changed]⟩

end EcsDomain

namespace EcsDomain

theorem mem_keys_dictSet_self (dict : List (String × PyVal)) (k : String) (v : PyVal) :
    k ∈ (dictSet dict k v).map Prod.fst := by
  unfold dictSet
  split
  · next h =>
    rw [List.any_eq_true] at h
    obtain ⟨kv, hmem, hkv⟩ := h
    rw [beq_iff_eq] at hkv
    exact List.mem_map.mpr ⟨(k, v), List.mem_map.mpr ⟨kv, hmem, by simp [hkv]⟩, rfl⟩
  · simp

theorem mem_keys_dictSet_ne (dict : List (String × PyVal)) (k2 : String) (v : PyVal)
    (k : String) (hne : k ≠ k2) :
    (k ∈ (dictSet dict k2 v).map Prod.fst) ↔ k ∈ dict.map Prod.fst := by
  unfold dictSet
  split
  · rw [List.map_map]
    constructor
    · intro hmem
      obtain ⟨kv, hkvmem, heq⟩ := List.mem_map.mp hmem
      dsimp only [Function.comp] at heq
      by_cases hk : kv.fst = k2
      · rw [if_pos (by simpa using hk)] at heq
        exact absurd heq.symm hne
      · rw [if_neg (by simpa using hk)] at heq
        exact List.mem_map.mpr ⟨kv, hkvmem, heq⟩
    · intro hmem
      obtain ⟨kv, hkvmem, heq⟩ := List.mem_map.mp hmem
      refine List.mem_map.mpr ⟨kv, hkvmem, ?_⟩
      dsimp only [Function.comp]
      rw [if_neg (by simp [heq, hne])]
      exact heq
  · simp [hne]

theorem mem_keys_condSet_ne (cond : Bool) (dict : List (String × PyVal))
    (k2 : String) (v : PyVal) (k : String) (hne : k ≠ k2) :
    (k ∈ (condSet cond dict k2 v).map Prod.fst) ↔ k ∈ dict.map Prod.fst := by
  unfold condSet
  cases cond
  · simp
  · simpa using mem_keys_dictSet_ne dict k2 v k hne

theorem mem_dictSet_of_ne (dict : List (String × PyVal)) (k2 : String) (v : PyVal)
    (k' : String) (v' : PyVal) (hne : k' ≠ k2) (hmem : (k', v') ∈ dict) :
    (k', v') ∈ dictSet dict k2 v := by
  unfold dictSet
  split
  · exact List.mem_map.mpr ⟨(k', v'), hmem, by simp [hne]⟩
  · exact List.mem_append_left _ hmem

theorem mem_condSet_of_ne (cond : Bool) (dict : List (String × PyVal)) (k2 : String)
    (v : PyVal) (k' : String) (v' : PyVal) (hne : k' ≠ k2) (hmem : (k', v') ∈ dict) :
    (k', v') ∈ condSet cond dict k2 v := by
  unfold condSet
  cases cond
  · simpa using hmem
  · simpa using mem_dictSet_of_ne dict k2 v k' v' hne hmem

/-- The `changed` entry of `dump` always carries the object's `changed`
flag. -/
theorem dump_changed_mem (s : EcsDomainState) :
    ("changed", PyVal.pyBool s.changed) ∈ dump s := by
  unfold dump dumpArtifact
  split
  · repeat'
      first
        | exact List.Mem.head _
        | decide
        | apply mem_dictSet_of_ne
        | apply mem_condSet_of_ne
  · split
    · repeat'
        first
          | exact List.Mem.head _
          | decide
          | apply mem_dictSet_of_ne
          | apply mem_condSet_of_ne
    · split
      · repeat'
          first
            | exact List.Mem.head _
            | decide
            | apply mem_dictSet_of_ne
            | apply mem_condSet_of_ne
      · repeat'
          first
            | exact List.Mem.head _
            | decide
            | apply mem_dictSet_of_ne
            | apply mem_condSet_of_ne

end EcsDomain

namespace EcsDomain

theorem mem_keys_dumpArtifact (s : EcsDomainState) (result : List (String × PyVal))
    (k : String)
    (h1 : k ≠ "dns_location") (h2 : k ≠ "dns_contents") (h3 : k ≠ "dns_resource_type")
    (h4 : k ≠ "file_location") (h5 : k ≠ "file_contents") (h6 : k ≠ "emails") :
    (k ∈ (dumpArtifact s result).map Prod.fst) ↔ k ∈ result.map Prod.fst := by
  unfold dumpArtifact
  split
  · rw [mem_keys_dictSet_ne _ _ _ _ h3, mem_keys_dictSet_ne _ _ _ _ h2,
      mem_keys_dictSet_ne _ _ _ _ h1]
  · split
    · rw [mem_keys_dictSet_ne _ _ _ _ h5, mem_keys_dictSet_ne _ _ _ _ h4]
    · split
      · rw [mem_keys_dictSet_ne _ _ _ _ h6]
      · rfl

theorem mem_keys_condSet_set (cond : Bool) (dict : List (String × PyVal)) (k : String)
    (v : PyVal) (hnotin : k ∉ dict.map Prod.fst) :
    (k ∈ (condSet cond dict k v).map Prod.fst) ↔ cond = true := by
  unfold condSet
  cases cond
  · simpa using hnotin
  · simpa using mem_keys_dictSet_self dict k v

/-- The `ov_days_remaining` key is present in the result of `dump` exactly
when `self.ov_days_remaining` is truthy. -/
theorem mem_dumpKeys_ov_iff (s : EcsDomainState) :
    ("ov_days_remaining" ∈ dumpKeys s) ↔ truthyOptInt s.ov_days_remaining = true := by
  unfold dumpKeys dump
  rw [mem_keys_dumpArtifact s _ _ (by decide) (by decide) (by decide) (by decide)
      (by decide) (by decide),
    mem_keys_condSet_ne _ _ _ _ _ (by decide),
    mem_keys_condSet_ne _ _ _ _ _ (by decide),
    mem_keys_condSet_ne _ _ _ _ _ (by decide)]
  refine mem_keys_condSet_set _ _ _ _ ?_
  rw [mem_keys_condSet_ne _ _ _ _ _ (by decide),
    mem_keys_condSet_ne _ _ _ _ _ (by decide)]
  simp

/-- The `ev_days_remaining` key is present in the result of `dump` exactly
when `self.ev_days_remaining` is truthy. -/
theorem mem_dumpKeys_ev_iff (s : EcsDomainState) :
    ("ev_days_remaining" ∈ dumpKeys s) ↔ truthyOptInt s.ev_days_remaining = true := by
  unfold dumpKeys dump
  rw [mem_keys_dumpArtifact s _ _ (by decide) (by decide) (by decide) (by decide)
      (by decide) (by decide),
    mem_keys_condSet_ne _ _ _ _ _ (by decide)]
  refine mem_keys_condSet_set _ _ _ _ ?_
  rw [mem_keys_condSet_ne _ _ _ _ _ (by decide),
    mem_keys_condSet_ne _ _ _ _ _ (by decide),
    mem_keys_condSet_ne _ _ _ _ _ (by decide),
    mem_keys_condSet_ne _ _ _ _ _ (by decide)]
  simp

end EcsDomain

/-- C1: for every fetched domain record, `EcsDomain.check` returns `true` iff
the record's status is one of APPROVED, INITIAL_VERIFICATION or
RE_VERIFICATION, the status is not EXPIRING, and, when the status is
INITIAL_VERIFICATION or RE_VERIFICATION, the record's current verification
method equals the requested one; when the `GetDomain` lookup raises an API
error, `check` returns `false` (and leaves the state untouched). -/
theorem check_true_iff_satisfied (s : EcsDomainState) (now : Int) (rm : String) :
    (∀ d : DomainDetails,
      ((EcsDomain.check s (Except.ok d) now rm).2 = true ↔
        ((d.verificationStatus = "APPROVED" ∨
            d.verificationStatus = "INITIAL_VERIFICATION" ∨
            d.verificationStatus = "RE_VERIFICATION") ∧
          d.verificationStatus ≠ "EXPIRING" ∧
          ((d.verificationStatus = "INITIAL_VERIFICATION" ∨
              d.verificationStatus = "RE_VERIFICATION") →
            (EcsDomain.set_domain_details s d now).verification_method =
              Option.some rm)))) ∧
    ∀ e : Unit, EcsDomain.check s (Except.error e) now rm = (s, false) := by
  constructor
  · intro d
    rw [EcsDomain.check_ok_snd_iff]
    constructor
    · rintro ⟨hmem, himp⟩
      refine ⟨hmem, ?_, himp⟩
      rcases hmem with h | h | h <;> rw [h] <;> decide
    · rintro ⟨hmem, _, himp⟩
      exact ⟨hmem, himp⟩
  · intro e
    exact EcsDomain.check_error_eq s now rm e

/-- A fetched record carrying a fresh dns record value, used to exercise the
artifact-poll loop. -/
def pollDetails : DomainDetails :=
  { verificationMethod := Option.some "DNS",
    verificationStatus := "INITIAL_VERIFICATION",
    ovEligible := Option.none, ovExpiry := Option.none,
    evEligible := Option.none, evExpiry := Option.none,
    clientId := 1,
    dnsMethod := Option.some
      { recordDomain := "_pki-validation.example.com", recordType := "TXT",
        recordValue := "FRESH" },
    webServerMethod := Option.none,
    emailMethod := Option.none }

/-- C3 counterexample: on an iteration where the artifact-changed condition
holds, the poll loop of `request_domain` takes an explicit early exit
(`break`): it stops after one iteration with the break flag set, rather than
exhausting the 4-iteration budget, and its behavior differs between the
condition holding and not holding. -/
theorem poll_loop_break_counterexample :
    EcsDomain.artifact_changed "dns" pollDetails initState = true ∧
    EcsDomain.poll_loop (EcsDomain.artifact_changed "dns" pollDetails initState) 4 =
      (1, true) ∧
    EcsDomain.poll_loop (EcsDomain.artifact_changed "dns" pollDetails initState) 4 ≠
      (4, false) ∧
    EcsDomain.poll_loop true 4 ≠ EcsDomain.poll_loop false 4 := by
  refine ⟨rfl, rfl, by decide, by decide⟩

/-- C3 amended: when the artifact-changed condition holds, the poll loop
breaks out after its first iteration; otherwise it exhausts the fixed
4-iteration budget.  (The loop body performs no refetch or sleep, so the
condition is constant over the loop.) -/
theorem poll_loop_exit_spec (vm : String) (result : DomainDetails) (s : EcsDomainState) :
    EcsDomain.poll_loop (EcsDomain.artifact_changed vm result s) 4 =
      if EcsDomain.artifact_changed vm result s then (1, true) else (4, false) := by
  cases h : EcsDomain.artifact_changed vm result s
  · decide
  · decide

/-- C7: supplying `verification_email` together with a verification method
other than `email` makes the module fail validation immediately: the run is
a single `fail_json` event, with no ECS client construction and no API
call. -/
theorem validation_rejects_email_with_other_method (p : ModuleParams) (ienv : InitEnv)
    (env : ApiEnv) (now : Int)
    (h1 : truthyStr p.verification_email = true) (h2 : p.verification_method ≠ "email") :
    main_run p ienv env now =
      [MainEvent.failJson
        ("The verification_email field is invalid when verification_method=\"" ++
          p.verification_method ++ "\".")] ∧
    ∀ e ∈ main_run p ienv env now,
      (∀ c : ApiCall, e ≠ MainEvent.apiCall c) ∧ e ≠ MainEvent.constructClient := by
  have hmain : main_run p ienv env now =
      [MainEvent.failJson
        ("The verification_email field is invalid when verification_method=\"" ++
          p.verification_method ++ "\".")] := by
    unfold main_run
    rw [if_pos ⟨h1, h2⟩]
  refine ⟨hmain, ?_⟩
  intro e he
  rw [hmain] at he
  rw [List.mem_singleton] at he
  subst he
  exact ⟨fun c => by simp, by simp⟩

/-- Module parameters pairing a verification email with the dns method. -/
def pW7 : ModuleParams :=
  { client_id := 1, domain_name := "example.com", verification_method := "dns",
    verification_email := Option.some "admin@example.com" }

/-- An API environment in which every call would fail; no call is ever made
on the runs it witnesses. -/
def envW7 : ApiEnv :=
  { getDomain1 := Except.error (), requestResult := Except.error (),
    getDomain2 := Except.error (), getDomain3 := Except.error () }

theorem validation_rejects_email_with_other_method_witness :
    main_run pW7 ⟨true, true⟩ envW7 0 =
      [MainEvent.failJson
        ("The verification_email field is invalid when verification_method=\"" ++
          pW7.verification_method ++ "\".")] ∧
    ∀ e ∈ main_run pW7 ⟨true, true⟩ envW7 0,
      (∀ c : ApiCall, e ≠ MainEvent.apiCall c) ∧ e ≠ MainEvent.constructClient :=
  validation_rejects_email_with_other_method pW7 ⟨true, true⟩ envW7 0 (by decide) (by decide)

/-- Initial `GetDomain` response of the leak run: the domain is already in
INITIAL_VERIFICATION by email, with one validation address on file. -/
def leakDetailsBefore : DomainDetails :=
  { verificationMethod := Option.some "EMAIL",
    verificationStatus := "INITIAL_VERIFICATION",
    ovEligible := Option.none, ovExpiry := Option.none,
    evEligible := Option.none, evExpiry := Option.none,
    clientId := 1,
    dnsMethod := Option.none, webServerMethod := Option.none,
    emailMethod := Option.some ["admin@example.com"] }

/-- `GetDomain` response after the reverify request switched the domain to
dns verification. -/
def leakDetailsAfter : DomainDetails :=
  { verificationMethod := Option.some "DNS",
    verificationStatus := "INITIAL_VERIFICATION",
    ovEligible := Option.none, ovExpiry := Option.none,
    evEligible := Option.none, evExpiry := Option.none,
    clientId := 1,
    dnsMethod := Option.some
      { recordDomain := "_pki-validation.example.com", recordType := "TXT",
        recordValue := "ABCD1234" },
    webServerMethod := Option.none,
    emailMethod := Option.none }

/-- Module parameters requesting dns verification of the leak-run domain. -/
def leakParams : ModuleParams :=
  { client_id := 1, domain_name := "example.com", verification_method := "dns",
    verification_email := Option.none }

/-- The API environment of the leak run: all calls succeed. -/
def leakEnv : ApiEnv :=
  { getDomain1 := Except.ok leakDetailsBefore, requestResult := Except.ok (),
    getDomain2 := Except.ok leakDetailsAfter, getDomain3 := Except.ok leakDetailsAfter }

/-- The final object state of the leak run. -/
def leakFinal : EcsDomainState :=
  { changed := true,
    domain_status := Option.some "INITIAL_VERIFICATION",
    verification_method := Option.some "dns",
    dns_location := Option.some "_pki-validation.example.com",
    dns_contents := Option.some "ABCD1234",
    dns_resource_type := Option.some "TXT",
    emails := Option.some ["admin@example.com"],
    client_id := Option.some 1 }

/-- C2 fails on the code: in a completed run whose final verification method
is dns, the result dictionary still contains the `emails` key (with the stale
email-method artifact left over from the pre-request state) next to the dns
artifact fields, because `dump` adds `emails` whenever `self.emails` is
truthy, regardless of the verification method.  This contradicts the
module's own RETURN documentation, which says `emails` is returned only when
the verification method is email. -/
theorem dump_leaks_stale_emails :
    ∃ s : EcsDomainState,
      (EcsDomain.request_domain initState leakParams leakEnv 0).2 = Except.ok s ∧
      s.verification_method = Option.some "dns" ∧
      "emails" ∈ EcsDomain.dumpKeys s ∧
      ("emails", PyVal.pyStrList ["admin@example.com"]) ∈ EcsDomain.dump s ∧
      "dns_location" ∈ EcsDomain.dumpKeys s := by
  refine ⟨leakFinal, by rfl, ?_, ?_, ?_, ?_⟩ <;> decide

/-- C4: whenever `check` has returned `false`, `request_domain` issues
`AddDomain` with the domain name in the body when the status lookup produced
no domain status, and `ReverifyDomain` with no domain name in the body
otherwise; in each case the other call never appears in the trace. -/
theorem request_dispatch_add_or_reverify (p : ModuleParams) (env : ApiEnv) (now : Int)
    (s : EcsDomainState)
    (h : EcsDomain.check initState env.getDomain1 now p.verification_method = (s, false)) :
    (truthyStr s.domain_status = false →
      ApiCall.AddDomain p.client_id (EcsDomain.build_body p s.domain_status) ∈
        (EcsDomain.request_domain initState p env now).1 ∧
      (EcsDomain.build_body p s.domain_status).domainName = Option.some p.domain_name ∧
      ∀ c dn b, ApiCall.ReverifyDomain c dn b ∉
        (EcsDomain.request_domain initState p env now).1) ∧
    (truthyStr s.domain_status = true →
      ApiCall.ReverifyDomain p.client_id p.domain_name
          (EcsDomain.build_body p s.domain_status) ∈
        (EcsDomain.request_domain initState p env now).1 ∧
      (EcsDomain.build_body p s.domain_status).domainName = Option.none ∧
      ∀ c b, ApiCall.AddDomain c b ∉
        (EcsDomain.request_domain initState p env now).1) := by
  obtain ⟨tail, hcalls, htail⟩ :=
    EcsDomain.request_domain_calls_shape initState p env now s h
  constructor
  · intro hfalsy
    simp only [hfalsy, Bool.not_false, if_true] at hcalls
    refine ⟨?_, ?_, ?_⟩
    · rw [hcalls]
      exact List.mem_cons_of_mem _ (List.mem_cons_self _ _)
    · unfold EcsDomain.build_body
      simp [hfalsy]
    · intro c dn b hmem
      rw [hcalls] at hmem
      rcases List.mem_cons.mp hmem with heq | hmem
      · exact ApiCall.noConfusion heq
      rcases List.mem_cons.mp hmem with heq | hmem
      · exact ApiCall.noConfusion heq
      · exact ApiCall.noConfusion (htail _ hmem)
  · intro htruthy
    simp only [htruthy, Bool.not_true, Bool.false_eq_true, if_false] at hcalls
    refine ⟨?_, ?_, ?_⟩
    · rw [hcalls]
      exact List.mem_cons_of_mem _ (List.mem_cons_self _ _)
    · unfold EcsDomain.build_body
      simp [htruthy]
    · intro c b hmem
      rw [hcalls] at hmem
      rcases List.mem_cons.mp hmem with heq | hmem
      · exact ApiCall.noConfusion heq
      rcases List.mem_cons.mp hmem with heq | hmem
      · exact ApiCall.noConfusion heq
      · exact ApiCall.noConfusion (htail _ hmem)

/-- C5: for a domain fetched as APPROVED whose current verification method
matches the requested one, `request_domain` issues no `AddDomain` or
`ReverifyDomain` call; the run ends in a state whose `changed` flag — and
hence the `changed` field of the result of `dump` — is `false`. -/
theorem approved_matching_no_request (p : ModuleParams) (env : ApiEnv)
    (d : DomainDetails) (now : Int)
    (hfetch : env.getDomain1 = Except.ok d)
    (hst : d.verificationStatus = "APPROVED")
    (hvm : (EcsDomain.set_domain_details initState d now).verification_method =
      Option.some p.verification_method) :
    (∀ c b, ApiCall.AddDomain c b ∉ (EcsDomain.request_domain initState p env now).1) ∧
    (∀ c dn b, ApiCall.ReverifyDomain c dn b ∉
      (EcsDomain.request_domain initState p env now).1) ∧
    ∃ s : EcsDomainState,
      (EcsDomain.request_domain initState p env now).2 = Except.ok s ∧
      s.changed = false ∧ ("changed", PyVal.pyBool false) ∈ EcsDomain.dump s := by
  have hsnd : (EcsDomain.check initState (Except.ok d) now p.verification_method).2 = true :=
    (EcsDomain.check_ok_snd_iff initState d now p.verification_method).mpr
      ⟨Or.inl hst, fun _ => hvm⟩
  have hcheck : EcsDomain.check initState (Except.ok d) now p.verification_method =
      (EcsDomain.set_domain_details initState d now, true) :=
    Prod.ext_iff.mpr
      ⟨EcsDomain.check_ok_fst initState d now p.verification_method, hsnd⟩
  have hreq := EcsDomain.request_domain_check_true initState p env now
    (EcsDomain.set_domain_details initState d now) (by rw [hfetch]; exact hcheck)
  rw [hreq]
  refine ⟨?_, ?_, (EcsDomain.set_domain_details initState d now), rfl, ?_, ?_⟩
  · intro c b hmem
    rw [List.mem_singleton] at hmem
    exact ApiCall.noConfusion hmem
  · intro c dn b hmem
    rw [List.mem_singleton] at hmem
    exact ApiCall.noConfusion hmem
  · rw [EcsDomain.set_domain_details_changed]
    rfl
  · have hc := EcsDomain.dump_changed_mem (EcsDomain.set_domain_details initState d now)
    rw [EcsDomain.set_domain_details_changed] at hc
    exact hc

/-- C9: for a domain fetched as APPROVED, `check` returns `true` even when
the current verification method differs from the requested one; no
`AddDomain` or `ReverifyDomain` call is issued and the run ends in a state
whose `changed` flag is `false` (the method comparison applies only to the
INITIAL_VERIFICATION and RE_VERIFICATION states). -/
theorem approved_ignores_method_mismatch (p : ModuleParams) (env : ApiEnv)
    (d : DomainDetails) (now : Int)
    (hfetch : env.getDomain1 = Except.ok d)
    (hst : d.verificationStatus = "APPROVED")
    (hvm : (EcsDomain.set_domain_details initState d now).verification_method ≠
      Option.some p.verification_method) :
    (EcsDomain.check initState (Except.ok d) now p.verification_method).2 = true ∧
    (∀ c b, ApiCall.AddDomain c b ∉ (EcsDomain.request_domain initState p env now).1) ∧
    (∀ c dn b, ApiCall.ReverifyDomain c dn b ∉
      (EcsDomain.request_domain initState p env now).1) ∧
    ∃ s : EcsDomainState,
      (EcsDomain.request_domain initState p env now).2 = Except.ok s ∧
      s.changed = false ∧ ("changed", PyVal.pyBool false) ∈ EcsDomain.dump s := by
  have hsnd : (EcsDomain.check initState (Except.ok d) now p.verification_method).2 = true := by
    refine (EcsDomain.check_ok_snd_iff initState d now p.verification_method).mpr
      ⟨Or.inl hst, fun hiv => ?_⟩
    rcases hiv with hiv | hiv <;> rw [hst] at hiv <;> exact absurd hiv (by decide)
  have hcheck : EcsDomain.check initState (Except.ok d) now p.verification_method =
      (EcsDomain.set_domain_details initState d now, true) :=
    Prod.ext_iff.mpr
      ⟨EcsDomain.check_ok_fst initState d now p.verification_method, hsnd⟩
  have hreq := EcsDomain.request_domain_check_true initState p env now
    (EcsDomain.set_domain_details initState d now) (by rw [hfetch]; exact hcheck)
  rw [hreq]
  refine ⟨hsnd, ?_, ?_, (EcsDomain.set_domain_details initState d now), rfl, ?_, ?_⟩
  · intro c b hmem
    rw [List.mem_singleton] at hmem
    exact ApiCall.noConfusion hmem
  · intro c dn b hmem
    rw [List.mem_singleton] at hmem
    exact ApiCall.noConfusion hmem
  · rw [EcsDomain.set_domain_details_changed]
    rfl
  · have hc := EcsDomain.dump_changed_mem (EcsDomain.set_domain_details initState d now)
    rw [EcsDomain.set_domain_details_changed] at hc
    exact hc

/-- C6: for a domain fetched in INITIAL_VERIFICATION whose current
verification method differs from the requested one, a `ReverifyDomain` call
is issued, and when the request and the subsequent fetches succeed the run
ends in a state whose `changed` flag — and hence the `changed` field of the
result of `dump` — is `true`. -/
theorem initial_verification_method_change_reverify (p : ModuleParams) (env : ApiEnv)
    (d r2 r3 : DomainDetails) (now : Int)
    (hfetch : env.getDomain1 = Except.ok d)
    (hst : d.verificationStatus = "INITIAL_VERIFICATION")
    (hvm : (EcsDomain.set_domain_details initState d now).verification_method ≠
      Option.some p.verification_method)
    (hreq : env.requestResult = Except.ok ())
    (hg2 : env.getDomain2 = Except.ok r2)
    (hg3 : env.getDomain3 = Except.ok r3) :
    (∃ b, ApiCall.ReverifyDomain p.client_id p.domain_name b ∈
      (EcsDomain.request_domain initState p env now).1) ∧
    ∃ s : EcsDomainState,
      (EcsDomain.request_domain initState p env now).2 = Except.ok s ∧
      s.changed = true ∧ ("changed", PyVal.pyBool true) ∈ EcsDomain.dump s := by
  have hsnd : (EcsDomain.check initState (Except.ok d) now p.verification_method).2 = false := by
    rw [Bool.eq_false_iff]
    intro htrue
    obtain ⟨hmem, himp⟩ :=
      (EcsDomain.check_ok_snd_iff initState d now p.verification_method).mp htrue
    exact hvm (himp (Or.inl hst))
  have hcheck : EcsDomain.check initState env.getDomain1 now p.verification_method =
      (EcsDomain.set_domain_details initState d now, false) := by
    rw [hfetch]
    exact Prod.ext_iff.mpr
      ⟨EcsDomain.check_ok_fst initState d now p.verification_method, hsnd⟩
  have htruthy : truthyStr
      (EcsDomain.set_domain_details initState d now).domain_status = true := by
    rw [EcsDomain.set_domain_details_status, hst]
    decide
  constructor
  · obtain ⟨tail, hcalls, htail⟩ :=
      EcsDomain.request_domain_calls_shape initState p env now _ hcheck
    simp only [htruthy, Bool.not_true, Bool.false_eq_true, if_false] at hcalls
    refine ⟨EcsDomain.build_body p
      (EcsDomain.set_domain_details initState d now).domain_status, ?_⟩
    rw [hcalls]
    exact List.mem_cons_of_mem _ (List.mem_cons_self _ _)
  · obtain ⟨s', hok, hchanged⟩ :=
      EcsDomain.request_domain_success_changed initState p env now _ r2 r3 hcheck hreq hg2 hg3
    refine ⟨s', hok, hchanged, ?_⟩
    have hc := EcsDomain.dump_changed_mem s'
    rw [hchanged] at hc
    exact hc

/-- C8: when the fetched record's OV (resp. EV) expiry date is absent, the
result of `dump` on the resulting state omits the `ov_days_remaining`
(resp. `ev_days_remaining`) key. -/
theorem dump_omits_days_when_expiry_absent (s : EcsDomainState) (d : DomainDetails)
    (now : Int) :
    (d.ovExpiry = Option.none →
      "ov_days_remaining" ∉ EcsDomain.dumpKeys (EcsDomain.set_domain_details s d now)) ∧
    (d.evExpiry = Option.none →
      "ev_days_remaining" ∉ EcsDomain.dumpKeys (EcsDomain.set_domain_details s d now)) := by
  constructor
  · intro hov
    rw [EcsDomain.mem_dumpKeys_ov_iff, EcsDomain.set_domain_details_ov_days, hov]
    simp [calculate_days_remaining, truthyOptInt]
  · intro hev
    rw [EcsDomain.mem_dumpKeys_ev_iff, EcsDomain.set_domain_details_ev_days, hev]
    simp [calculate_days_remaining, truthyOptInt]

/-- C10: when the computed days-remaining value is 0 — although the
corresponding expiry date is present — the `ov_days_remaining`
(resp. `ev_days_remaining`) key is omitted from the result of `dump`,
because inclusion tests the integer's truthiness; a negative value, by
contrast, is included. -/
theorem dump_zero_days_truthiness (s : EcsDomainState) (d : DomainDetails) (now : Int) :
    (∀ e : Int, d.ovExpiry = Option.some e → Int.fdiv (e - now) MICROS_PER_DAY = 0 →
      "ov_days_remaining" ∉ EcsDomain.dumpKeys (EcsDomain.set_domain_details s d now)) ∧
    (∀ e : Int, d.ovExpiry = Option.some e → Int.fdiv (e - now) MICROS_PER_DAY < 0 →
      "ov_days_remaining" ∈ EcsDomain.dumpKeys (EcsDomain.set_domain_details s d now)) ∧
    (∀ e : Int, d.evExpiry = Option.some e → Int.fdiv (e - now) MICROS_PER_DAY = 0 →
      "ev_days_remaining" ∉ EcsDomain.dumpKeys (EcsDomain.set_domain_details s d now)) ∧
    (∀ e : Int, d.evExpiry = Option.some e → Int.fdiv (e - now) MICROS_PER_DAY < 0 →
      "ev_days_remaining" ∈ EcsDomain.dumpKeys (EcsDomain.set_domain_details s d now)) := by
  refine ⟨?_, ?_, ?_, ?_⟩
  · intro e he h0
    rw [EcsDomain.mem_dumpKeys_ov_iff, EcsDomain.set_domain_details_ov_days, he]
    simp [calculate_days_remaining, truthyOptInt, h0]
  · intro e he hneg
    rw [EcsDomain.mem_dumpKeys_ov_iff, EcsDomain.set_domain_details_ov_days, he]
    simp only [calculate_days_remaining, truthyOptInt, bne_iff_ne, ne_eq,
      decide_eq_true_eq]
    omega
  · intro e he h0
    rw [EcsDomain.mem_dumpKeys_ev_iff, EcsDomain.set_domain_details_ev_days, he]
    simp [calculate_days_remaining, truthyOptInt, h0]
  · intro e he hneg
    rw [EcsDomain.mem_dumpKeys_ev_iff, EcsDomain.set_domain_details_ev_days, he]
    simp only [calculate_days_remaining, truthyOptInt, bne_iff_ne, ne_eq,
      decide_eq_true_eq]
    omega

/-- Parameters of a witness run on a domain the account does not yet have. -/
def pW4 : ModuleParams :=
  { client_id := 1, domain_name := "newdomain.example.com",
    verification_method := "dns", verification_email := Option.none }

/-- Witness environment: the status lookup raises an API error (domain not
found), every later call would succeed enough for the dispatch to show. -/
def envW4 : ApiEnv :=
  { getDomain1 := Except.error (), requestResult := Except.error (),
    getDomain2 := Except.error (), getDomain3 := Except.error () }

theorem request_dispatch_add_or_reverify_witness :
    ApiCall.AddDomain pW4.client_id (EcsDomain.build_body pW4 initState.domain_status) ∈
      (EcsDomain.request_domain initState pW4 envW4 0).1 ∧
    (EcsDomain.build_body pW4 initState.domain_status).domainName =
      Option.some pW4.domain_name ∧
    ∀ c dn b, ApiCall.ReverifyDomain c dn b ∉
      (EcsDomain.request_domain initState pW4 envW4 0).1 :=
  (request_dispatch_add_or_reverify pW4 envW4 0 initState rfl).1 rfl

/-- Witness record: an APPROVED domain currently verified by dns. -/
def dW5 : DomainDetails :=
  { verificationMethod := Option.some "DNS",
    verificationStatus := "APPROVED",
    ovEligible := Option.some true, ovExpiry := Option.none,
    evEligible := Option.none, evExpiry := Option.none,
    clientId := 1,
    dnsMethod := Option.some
      { recordDomain := "_pki-validation.example.com", recordType := "TXT",
        recordValue := "OLD" },
    webServerMethod := Option.none, emailMethod := Option.none }

/-- Witness parameters requesting the matching dns method. -/
def pW5 : ModuleParams :=
  { client_id := 1, domain_name := "example.com", verification_method := "dns",
    verification_email := Option.none }

/-- Witness environment for the APPROVED, matching-method run. -/
def envW5 : ApiEnv :=
  { getDomain1 := Except.ok dW5, requestResult := Except.error (),
    getDomain2 := Except.error (), getDomain3 := Except.error () }

theorem approved_matching_no_request_witness :
    (∀ c b, ApiCall.AddDomain c b ∉ (EcsDomain.request_domain initState pW5 envW5 0).1) ∧
    (∀ c dn b, ApiCall.ReverifyDomain c dn b ∉
      (EcsDomain.request_domain initState pW5 envW5 0).1) ∧
    ∃ s : EcsDomainState,
      (EcsDomain.request_domain initState pW5 envW5 0).2 = Except.ok s ∧
      s.changed = false ∧ ("changed", PyVal.pyBool false) ∈ EcsDomain.dump s :=
  approved_matching_no_request pW5 envW5 dW5 0 rfl rfl (by decide)

/-- Witness record: an APPROVED domain currently verified by email. -/
def dW9 : DomainDetails :=
  { verificationMethod := Option.some "EMAIL",
    verificationStatus := "APPROVED",
    ovEligible := Option.none, ovExpiry := Option.none,
    evEligible := Option.none, evExpiry := Option.none,
    clientId := 1,
    dnsMethod := Option.none, webServerMethod := Option.none,
    emailMethod := Option.some ["admin@example.com"] }

/-- Witness environment for the APPROVED, mismatching-method run. -/
def envW9 : ApiEnv :=
  { getDomain1 := Except.ok dW9, requestResult := Except.error (),
    getDomain2 := Except.error (), getDomain3 := Except.error () }

theorem approved_ignores_method_mismatch_witness :
    (EcsDomain.check initState (Except.ok dW9) 0 pW5.verification_method).2 = true ∧
    (∀ c b, ApiCall.AddDomain c b ∉ (EcsDomain.request_domain initState pW5 envW9 0).1) ∧
    (∀ c dn b, ApiCall.ReverifyDomain c dn b ∉
      (EcsDomain.request_domain initState pW5 envW9 0).1) ∧
    ∃ s : EcsDomainState,
      (EcsDomain.request_domain initState pW5 envW9 0).2 = Except.ok s ∧
      s.changed = false ∧ ("changed", PyVal.pyBool false) ∈ EcsDomain.dump s :=
  approved_ignores_method_mismatch pW5 envW9 dW9 0 rfl rfl (by decide)

theorem initial_verification_method_change_reverify_witness :
    (∃ b, ApiCall.ReverifyDomain leakParams.client_id leakParams.domain_name b ∈
      (EcsDomain.request_domain initState leakParams leakEnv 0).1) ∧
    ∃ s : EcsDomainState,
      (EcsDomain.request_domain initState leakParams leakEnv 0).2 = Except.ok s ∧
      s.changed = true ∧ ("changed", PyVal.pyBool true) ∈ EcsDomain.dump s :=
  initial_verification_method_change_reverify leakParams leakEnv leakDetailsBefore
    leakDetailsAfter leakDetailsAfter 0 rfl rfl (by decide) rfl rfl rfl

/-- Witness record with no expiry dates at all. -/
def dW8 : DomainDetails :=
  { verificationMethod := Option.none,
    verificationStatus := "APPROVED",
    ovEligible := Option.none, ovExpiry := Option.none,
    evEligible := Option.none, evExpiry := Option.none,
    clientId := 1,
    dnsMethod := Option.none, webServerMethod := Option.none,
    emailMethod := Option.none }

theorem dump_omits_days_when_expiry_absent_witness :
    "ov_days_remaining" ∉
      EcsDomain.dumpKeys (EcsDomain.set_domain_details initState dW8 0) ∧
    "ev_days_remaining" ∉
      EcsDomain.dumpKeys (EcsDomain.set_domain_details initState dW8 0) :=
  ⟨(dump_omits_days_when_expiry_absent initState dW8 0).1 rfl,
   (dump_omits_days_when_expiry_absent initState dW8 0).2 rfl⟩

/-- Witness record whose expiry dates are present and equal to the current
time, so the computed days remaining are 0. -/
def dW10zero : DomainDetails :=
  { verificationMethod := Option.none,
    verificationStatus := "APPROVED",
    ovEligible := Option.some true, ovExpiry := Option.some 0,
    evEligible := Option.some true, evExpiry := Option.some 0,
    clientId := 1,
    dnsMethod := Option.none, webServerMethod := Option.none,
    emailMethod := Option.none }

/-- Witness record whose expiry dates lie exactly one day in the past, so
the computed days remaining are -1. -/
def dW10neg : DomainDetails :=
  { verificationMethod := Option.none,
    verificationStatus := "APPROVED",
    ovEligible := Option.some true, ovExpiry := Option.some (-86400000000),
    evEligible := Option.some true, evExpiry := Option.some (-86400000000),
    clientId := 1,
    dnsMethod := Option.none, webServerMethod := Option.none,
    emailMethod := Option.none }

theorem dump_zero_days_truthiness_witness :
    "ov_days_remaining" ∉
      EcsDomain.dumpKeys (EcsDomain.set_domain_details initState dW10zero 0) ∧
    "ov_days_remaining" ∈
      EcsDomain.dumpKeys (EcsDomain.set_domain_details initState dW10neg 0) ∧
    "ev_days_remaining" ∉
      EcsDomain.dumpKeys (EcsDomain.set_domain_details initState dW10zero 0) ∧
    "ev_days_remaining" ∈
      EcsDomain.dumpKeys (EcsDomain.set_domain_details initState dW10neg 0) :=
  ⟨(dump_zero_days_truthiness initState dW10zero 0).1 0 rfl (by decide),
   (dump_zero_days_truthiness initState dW10neg 0).2.1 (-86400000000) rfl (by decide),
   (dump_zero_days_truthiness initState dW10zero 0).2.2.1 0 rfl (by decide),
   (dump_zero_days_truthiness initState dW10neg 0).2.2.2 (-86400000000) rfl (by decide)⟩
